import Mathlib

/-!
Shallow embedding of the climate-guardian-ai backend core:
the risk scoring engine (`app/services/ai_prediction.py`), the geospatial
alert matcher and notification dispatcher (`app/services/alert_service.py`),
and the alert update endpoint (`app/api/v1/endpoints/emergency.py`).

Numeric readings are modelled as rationals; readings that are nullable in
the Python code are `Option ℚ`.  Python truthiness (`if x:` treats both
`None` and `0.0` as false, and `""` as false for strings) is modelled
explicitly, since the source relies on it (`alert.radius or 50`,
`if climate_data.precipitation:` ...).
-/

namespace ClimateGuardian

/-- Python truthiness of an optional numeric value: `None` and `0` are falsy. -/
def qTruthy : Option ℚ → Bool
  | none => false
  | some x => x != 0

/-- Python truthiness of an optional string: `None` and `""` are falsy. -/
def strTruthy : Option String → Bool
  | none => false
  | some s => s != ""

/-- Python `x or d` for an optional string: falls back to the default when
`x` is `None` or the empty string. -/
def strOrDefault (o : Option String) (d : String) : String :=
  match o with
  | none => d
  | some s => if s = "" then d else s

/-! ## Observation model (`app/models/climate.py`, `ClimateData`)

One environmental reading.  Every numeric reading is nullable in the
database; the rule-based risk tier only consults `temperature`, `humidity`,
`wind_speed` and `precipitation`, but the remaining readings are kept for
faithfulness to the row shape. -/

structure ClimateData where
  id : Nat
  temperature : Option ℚ
  humidity : Option ℚ
  pressure : Option ℚ
  wind_speed : Option ℚ
  precipitation : Option ℚ
  visibility : Option ℚ
  cloud_cover : Option ℚ
  uv_index : Option ℚ
  pm25 : Option ℚ
  pm10 : Option ℚ
  deriving Repr, DecidableEq

/-- The per-category risk scores of `RiskAssessment`
(`app/models/climate.py`), together with the fields the prediction service
fills in. -/
structure RiskAssessment where
  climate_data_id : Nat
  flood_risk : ℚ
  drought_risk : ℚ
  storm_risk : ℚ
  heat_wave_risk : ℚ
  cold_wave_risk : ℚ
  wildfire_risk : ℚ
  overall_risk : ℚ
  model_version : String
  confidence_score : ℚ
  deriving Repr, DecidableEq

/-- A six-category score vector as returned by the learned-model
collaborator (`self.risk_model.predict`, one sigmoid output per risk
type). -/
structure RiskVec where
  flood : ℚ
  drought : ℚ
  storm : ℚ
  heat_wave : ℚ
  cold_wave : ℚ
  wildfire : ℚ
  deriving Repr, DecidableEq

/-- `np.mean` over the six categories, as used for `overall_risk` in
`generate_risk_assessment`. -/
def RiskVec.mean (v : RiskVec) : ℚ :=
  (v.flood + v.drought + v.storm + v.heat_wave + v.cold_wave + v.wildfire) / 6

/-- Temperature block of `_generate_default_risk_assessment`
(lines 367-371): the pair (heat wave risk, cold wave risk).  The outer
guard `if climate_data.temperature:` skips the block when the reading is
`None` or exactly `0` (Python truthiness). -/
def tempRisksOf (c : ClimateData) : ℚ × ℚ :=
  match c.temperature with
  | none => (0, 0)
  | some t =>
    if t = 0 then (0, 0)
    else if t > 35 then (min 1 ((t - 35) / 10), 0)
    else if t < -10 then (0, min 1 ((-10 - t) / 20))
    else (0, 0)

/-- Precipitation block (lines 374-378): the pair
(flood risk, drought risk).  The `elif precipitation < 1` branch sets the
drought risk to the constant `0.3`; the humidity reading plays no role. -/
def precipRisksOf (c : ClimateData) : ℚ × ℚ :=
  match c.precipitation with
  | none => (0, 0)
  | some p =>
    if p = 0 then (0, 0)
    else if p > 50 then (min 1 ((p - 50) / 100), 0)
    else if p < 1 then (0, 3/10)
    else (0, 0)

/-- Wind block (lines 381-382): storm risk. -/
def stormRiskOf (c : ClimateData) : ℚ :=
  match c.wind_speed with
  | none => 0
  | some w => if w ≠ 0 ∧ w > 15 then min 1 ((w - 15) / 20) else 0

/-- Humidity-and-temperature block (lines 385-388): wildfire risk. -/
def wildfireRiskOf (c : ClimateData) : ℚ :=
  match c.humidity, c.temperature with
  | some h, some t =>
    if h ≠ 0 ∧ t ≠ 0 ∧ h < 30 ∧ t > 25 then
      min 1 ((30 - h) / 30 * ((t - 25) / 15))
    else 0
  | _, _ => 0

/-- `PredictionService._generate_default_risk_assessment`
(`ai_prediction.py` lines 355-411): the rule-based risk tier.
`overall_risk` is `np.mean` of the six category scores. -/
def generate_default_risk_assessment (c : ClimateData) : RiskAssessment :=
  { climate_data_id := c.id
    flood_risk := (precipRisksOf c).1
    drought_risk := (precipRisksOf c).2
    storm_risk := stormRiskOf c
    heat_wave_risk := (tempRisksOf c).1
    cold_wave_risk := (tempRisksOf c).2
    wildfire_risk := wildfireRiskOf c
    overall_risk := ((precipRisksOf c).1 + (precipRisksOf c).2 + stormRiskOf c
      + (tempRisksOf c).1 + (tempRisksOf c).2 + wildfireRiskOf c) / 6
    model_version := "rule_based_v1.0"
    confidence_score := 6/10 }

/-- `PredictionService.generate_risk_assessment`
(`ai_prediction.py` lines 302-353) at the tier-fallback level.

`pred` is the learned-model output of the collaborator: `some v` when
`self.risk_model.predict` returned the vector `v`, `none` when the learned
tier failed (feature preparation or prediction raised), in which case the
code falls back to `_generate_default_risk_assessment`. -/
def generate_risk_assessment (pred : Option RiskVec) (c : ClimateData) :
    RiskAssessment :=
  match pred with
  | some v =>
    { climate_data_id := c.id
      flood_risk := v.flood
      drought_risk := v.drought
      storm_risk := v.storm
      heat_wave_risk := v.heat_wave
      cold_wave_risk := v.cold_wave
      wildfire_risk := v.wildfire
      overall_risk := v.mean
      model_version := "v1.0"
      confidence_score := 85/100 }
  | none => generate_default_risk_assessment c

/-! ## User and alert model (`app/models/user.py`, `app/models/emergency.py`) -/

inductive UserRole
  | citizen
  | government
  | emergency_responder
  | researcher
  | admin
  deriving Repr, DecidableEq

inductive AlertSeverity
  | low
  | medium
  | high
  | critical
  deriving Repr, DecidableEq

inductive AlertStatus
  | active
  | resolved
  | cancelled
  deriving Repr, DecidableEq

/-- `User` row (`app/models/user.py`).  `default_latitude` and
`default_longitude` are stored as strings in the database and parsed with
`float(...)` inside `_find_affected_users`; we model the parsed coordinate
directly (a row whose string does not parse is skipped by that code, i.e.
behaves as if the coordinate were absent).  `notification_radius` is an
integer column, modelled as a rational. -/
structure User where
  id : Nat
  email : Option String
  phone_number : Option String
  role : UserRole
  is_active : Bool
  default_latitude : Option ℚ
  default_longitude : Option ℚ
  notification_radius : Option ℚ
  deriving Repr, DecidableEq

/-- `EmergencyAlert` row (`app/models/emergency.py`), restricted to the
fields the dispatcher and the update endpoint consult.  Timestamps are
abstracted to naturals. -/
structure EmergencyAlert where
  alert_id : String
  title : String
  description : String
  severity : AlertSeverity
  status : AlertStatus
  latitude : ℚ
  longitude : ℚ
  radius : Option ℚ
  location_name : Option String
  contact_info : Option String
  end_time : Option Nat
  expires_at : Option Nat
  deriving Repr, DecidableEq

/-! ## Geospatial matcher (`AlertService._find_affected_users`,
`alert_service.py` lines 90-130) -/

/-- Python `r or 50`: the default radius of 50 km is used when the stored
radius is `None` — and also when it is exactly `0`, since `0.0` is falsy. -/
def orDefaultRadius (r : Option ℚ) : ℚ :=
  match r with
  | none => 50
  | some x => if x = 0 then 50 else x

/-- The distance collaborator: `geodesic(a, b).kilometers` from geopy,
abstracted as a function on coordinate pairs. -/
def DistanceFn : Type := ℚ × ℚ → ℚ × ℚ → ℚ

/-- The per-user radius test of `_find_affected_users` (lines 110-120):
distance from the alert to the registered location of the user, compared with
`max(alert.radius or 50, user.notification_radius or 50)`. -/
def withinEffectiveRadius (dist : DistanceFn) (a : EmergencyAlert)
    (u : User) : Bool :=
  match u.default_latitude, u.default_longitude with
  | some lat, some lon =>
    let d := dist (a.latitude, a.longitude) (lat, lon)
    let alert_radius := orDefaultRadius a.radius
    let user_radius := orDefaultRadius u.notification_radius
    decide (d ≤ max alert_radius user_radius)
  | _, _ => false

/-- `AlertService._find_affected_users`: the DB query keeps active users
with both coordinates present (lines 98-104), then the loop keeps those
within the effective radius. -/
def find_affected_users (dist : DistanceFn) (a : EmergencyAlert)
    (db : List User) : List User :=
  (db.filter fun u =>
      u.is_active && u.default_latitude.isSome && u.default_longitude.isSome).filter
    (withinEffectiveRadius dist a)

/-- The government query of `AlertService._notify_government_agencies`
(lines 295-300): active users whose role is government or
emergency-responder, regardless of location. -/
def government_users (db : List User) : List User :=
  db.filter fun u =>
    u.is_active &&
      (u.role == UserRole.government || u.role == UserRole.emergency_responder)

/-! ## Notification dispatcher (`AlertService.send_alert_notifications`,
`alert_service.py` lines 31-88, and `_notify_government_agencies`,
lines 287-324)

Each channel send is an external call.  The shipped channel methods
(`_send_push_notification`, `_send_email_notification`,
`_send_sms_notification`, `_send_government_email`) catch every exception
internally and return a boolean, but the own `try`/`except`
blocks also guard against a send raising, so a send outcome is modelled as
either a returned boolean or a raised exception. -/

inductive Channel
  | push
  | email
  | sms
  | govEmail
  deriving Repr, DecidableEq

inductive SendOutcome
  | ok (success : Bool)
  | exn (msg : String)
  deriving Repr, DecidableEq

/-- The channel collaborator: outcome of one send attempt for one user. -/
def SendFn : Type := Channel → User → SendOutcome

/-- Condition guarding the SMS attempt (lines 68-69): the Python `and`
chain `alert.severity.value == "critical" and user.phone_number and
await self._send_sms_notification(...)` short-circuits, so the send is
called exactly when the severity is critical and the phone number is
truthy. -/
def smsCondition (a : EmergencyAlert) (u : User) : Bool :=
  a.severity == AlertSeverity.critical && strTruthy u.phone_number

/-- The channels attempted for one affected user, in source order:
push unconditionally (line 56), email when `user.email` is truthy
(line 62), SMS under `smsCondition` (lines 68-70). -/
def channelPlan (a : EmergencyAlert) (u : User) : List Channel :=
  [Channel.push] ++ (if strTruthy u.email then [Channel.email] else []) ++
    (if smsCondition a u then [Channel.sms] else [])

/-- Outcome of processing one affected user inside the per-user
`try` block (lines 54-78): successes counted so far, channels that
succeeded (in order), the error recorded if a send raised, and the list of
sends actually attempted. -/
structure UserOutcome where
  sent : Nat
  okChannels : List Channel
  error : Option String
  attempts : List Channel
  deriving Repr, DecidableEq

/-- Run the channel plan for one user sequentially.  A send that returns
`false` moves on to the next channel; a send that raises aborts the
remaining channels for this user and records one error message (successes
already counted are kept, matching the mutable-dict updates in the
Python loop). -/
def runPlan (send : SendFn) (u : User) : List Channel → UserOutcome
  | [] => ⟨0, [], none, []⟩
  | ch :: rest =>
    match send ch u with
    | SendOutcome.exn m =>
      ⟨0, [], some ("Error sending notification to user " ++ toString u.id
        ++ ": " ++ m), [ch]⟩
    | SendOutcome.ok b =>
      let r := runPlan send u rest
      ⟨(if b then 1 else 0) + r.sent,
        (if b then [ch] else []) ++ r.okChannels,
        r.error,
        ch :: r.attempts⟩

/-- One iteration of the `for user in affected_users` loop. -/
def notifyUser (send : SendFn) (a : EmergencyAlert) (u : User) :
    UserOutcome :=
  runPlan send u (channelPlan a u)

/-- The aggregate dict built by `send_alert_notifications`. -/
structure DispatchResult where
  notifications_sent : Nat
  errors : List String
  channels_used : List Channel
  deriving Repr, DecidableEq

/-- `channels_used` appends a channel on its first success
(lines 58-59, 64-65, 72-73). -/
def insertChannel (acc : List Channel) (c : Channel) : List Channel :=
  if acc.contains c then acc else acc ++ [c]

/-- Merge the outcome of one user into the running aggregate, mirroring the
mutations of `notification_results` inside the loop. -/
def dispatchStep (send : SendFn) (a : EmergencyAlert)
    (r : DispatchResult) (u : User) : DispatchResult :=
  let o := notifyUser send a u
  { notifications_sent := r.notifications_sent + o.sent
    errors := r.errors ++ (match o.error with | some m => [m] | none => [])
    channels_used := o.okChannels.foldl insertChannel r.channels_used }

/-- `AlertService.send_alert_notifications` (lines 31-88).  When no user is
geospatially matched, the function returns early (lines 41-43) with an
empty aggregate — before the government loop runs.  The government
notifications (line 81) are not counted in the aggregate. -/
def send_alert_notifications (dist : DistanceFn) (send : SendFn)
    (a : EmergencyAlert) (db : List User) : DispatchResult :=
  let users := find_affected_users dist a db
  if users.isEmpty then ⟨0, [], []⟩
  else users.foldl (dispatchStep send a) ⟨0, [], []⟩

/-- Channels attempted for one government user inside
`_notify_government_agencies` (lines 302-311): the specialized government
email, then a push notification; an exception on the email aborts the push
for that user (caught by the per-user `try`). -/
def govUserAttempts (send : SendFn) (u : User) : List Channel :=
  match send Channel.govEmail u with
  | SendOutcome.exn _ => [Channel.govEmail]
  | SendOutcome.ok _ => [Channel.govEmail, Channel.push]

/-- Every (user, channel) send attempted by one full dispatch pass:
the affected-users loop followed by the government loop.  The early
return on an empty geospatial match skips the government loop as well. -/
def passAttempts (dist : DistanceFn) (send : SendFn) (a : EmergencyAlert)
    (db : List User) : List (User × Channel) :=
  let users := find_affected_users dist a db
  if users.isEmpty then []
  else
    (users.flatMap fun u => (notifyUser send a u).attempts.map fun c => (u, c))
      ++ ((government_users db).flatMap fun u =>
            (govUserAttempts send u).map fun c => (u, c))

/-! ## SMS message composition (`AlertService._send_sms_notification`,
`alert_service.py` lines 207-238)

Python `len` counts Unicode code points, so the message is modelled as a
list of characters. -/

/-- `alert.severity.value.upper()`. -/
def severityUpper : AlertSeverity → String
  | AlertSeverity.low => "LOW"
  | AlertSeverity.medium => "MEDIUM"
  | AlertSeverity.high => "HIGH"
  | AlertSeverity.critical => "CRITICAL"

/-- The f-string at lines 219-222 composing the SMS body. -/
def composeSmsMessage (a : EmergencyAlert) : List Char :=
  ("🚨 " ++ severityUpper a.severity ++ " ALERT: " ++ a.title
    ++ ". Location: " ++ strOrDefault a.location_name "See details"
    ++ ". Contact: " ++ strOrDefault a.contact_info "Emergency Services"
    ++ ". Alert ID: " ++ a.alert_id).data

/-- The truncation at lines 226-227: messages longer than 160 characters
are replaced by their first 157 characters followed by `"..."`. -/
def truncateSms (msg : List Char) : List Char :=
  if 160 < msg.length then msg.take 157 ++ "...".data else msg

/-- The SMS body actually handed to the SMS collaborator. -/
def smsMessage (a : EmergencyAlert) : List Char :=
  truncateSms (composeSmsMessage a)

/-! ## Alert update endpoint (`update_emergency_alert`,
`app/api/v1/endpoints/emergency.py` lines 184-249) -/

/-- `EmergencyAlertUpdate` (`app/schemas/emergency.py` lines 42-50): the
only patchable fields.  `none` models a field absent from the patch
(`exclude_unset=True` drops unset fields before the `setattr` loop). -/
structure AlertPatch where
  title : Option String
  description : Option String
  severity : Option AlertSeverity
  status : Option AlertStatus
  end_time : Option Nat
  expires_at : Option Nat
  contact_info : Option String
  deriving Repr, DecidableEq

/-- The empty patch. -/
def AlertPatch.empty : AlertPatch :=
  ⟨none, none, none, none, none, none, none⟩

/-- The `setattr` loop at lines 213-215: every field present in the patch
overwrites the stored value, unconditionally. -/
def applyPatch (a : EmergencyAlert) (p : AlertPatch) : EmergencyAlert :=
  { a with
    title := p.title.getD a.title
    description := p.description.getD a.description
    severity := p.severity.getD a.severity
    status := p.status.getD a.status
    end_time := (p.end_time.map some).getD a.end_time
    expires_at := (p.expires_at.map some).getD a.expires_at
    contact_info := (p.contact_info.map some).getD a.contact_info }

inductive UpdateError
  | forbidden
  | notFound
  deriving Repr, DecidableEq

/-- Roles allowed to update alerts (lines 195-199). -/
def canManageAlerts (r : UserRole) : Bool :=
  r == UserRole.government || r == UserRole.emergency_responder ||
    r == UserRole.admin

/-- Point lookup by `alert_id` (lines 202-204). -/
def findAlert (db : List EmergencyAlert) (aid : String) :
    Option EmergencyAlert :=
  db.find? fun a => a.alert_id == aid

/-- `update_emergency_alert`: permission check, lookup, then the
unconditional `setattr` loop.  There is no check of the current status
anywhere in the handler: a patch is applied the same way whether the
stored alert is active, resolved or cancelled. -/
def update_emergency_alert (db : List EmergencyAlert) (aid : String)
    (p : AlertPatch) (role : UserRole) : Except UpdateError EmergencyAlert :=
  if ¬ canManageAlerts role then Except.error UpdateError.forbidden
  else
    match findAlert db aid with
    | none => Except.error UpdateError.notFound
    | some a => Except.ok (applyPatch a p)

/-! ## Comparison definition from the spec wording, and concrete instances -/

/-- Effective radius as the spec sentence words it: the maximum of
`alert.radius` *if set* else 50 and `candidate.notification_radius`
*if set* else 50.  Unlike the code (`orDefaultRadius`), a stored radius of
exactly `0` counts as set and is used as-is. -/
def specEffectiveRadius (a : EmergencyAlert) (u : User) : ℚ :=
  max (a.radius.getD 50) (u.notification_radius.getD 50)

/-- A score lying in the closed unit interval. -/
def InUnit (x : ℚ) : Prop := 0 ≤ x ∧ x ≤ 1

/-- An observation with every reading absent. -/
def obsAllMissing : ClimateData :=
  ⟨0, none, none, none, none, none, none, none, none, none, none⟩

/-- The known input of the spec: temperature 40, humidity 20,
wind speed 20, all other readings absent. -/
def obsHotDryWindy : ClimateData :=
  ⟨0, some 40, some 20, none, some 20, none, none, none, none, none, none⟩

/-- Low precipitation (0.5) together with high humidity (90). -/
def obsDrizzleHumid : ClimateData :=
  ⟨0, none, some 90, none, none, some (1/2), none, none, none, none, none⟩

/-- A critical active alert at the origin with no explicit radius. -/
def baseAlert : EmergencyAlert :=
  ⟨"ALERT-1", "Flood warning", "River rising", AlertSeverity.critical,
    AlertStatus.active, 0, 0, none, none, none, none, none⟩

/-- A resolved (terminal) alert. -/
def resolvedAlert : EmergencyAlert :=
  ⟨"ALERT-1", "Flood warning", "River rising", AlertSeverity.high,
    AlertStatus.resolved, 0, 0, none, none, none, none, none⟩

/-- A patch that only changes the status, back to `active`. -/
def statusToActivePatch : AlertPatch :=
  ⟨none, none, none, some AlertStatus.active, none, none, none⟩

/-- The critical alert with an explicit affected radius of exactly 0
(allowed by the creation schema, which validates `radius ≥ 0`). -/
def zeroRadiusAlert : EmergencyAlert :=
  { baseAlert with radius := some 0 }

/-- The base alert with low severity. -/
def lowAlert : EmergencyAlert :=
  { baseAlert with severity := AlertSeverity.low }

/-- An active citizen registered at the origin with a personal
notification radius of 1 km. -/
def narrowUser : User :=
  ⟨1, none, none, UserRole.citizen, true, some 0, some 0, some 1⟩

/-- An active citizen registered at the origin, no channel addresses. -/
def ordinaryUser : User :=
  ⟨2, none, none, UserRole.citizen, true, some 0, some 0, none⟩

/-- An active government user with an email and a phone number but no
registered location. -/
def govPhoneUser : User :=
  ⟨3, some "gov@agency.example", some "+15550100", UserRole.government,
    true, none, none, none⟩

/-- Distance collaborator returning a constant 30 km. -/
def dist30 : DistanceFn := fun _ _ => 30

/-- Distance collaborator returning a constant 0 km. -/
def dist0 : DistanceFn := fun _ _ => 0

/-- Channel collaborator whose every send reports failure (returns
`False`) without raising. -/
def sendFail : SendFn := fun _ _ => SendOutcome.ok false

/-- Channel collaborator whose every send succeeds. -/
def sendOk : SendFn := fun _ _ => SendOutcome.ok true

/-! ## Helper lemmas -/

/-- Clamping with `min(1.0, q)` of a nonnegative term lands in [0,1]. -/
lemma inUnit_min_one {q : ℚ} (h : 0 ≤ q) : InUnit (min 1 q) :=
  ⟨le_min zero_le_one h, min_le_left _ _⟩

lemma inUnit_zero : InUnit (0 : ℚ) := ⟨le_refl 0, zero_le_one⟩

/-- Both temperature-block scores lie in [0,1]. -/
lemma tempRisks_bounds (c : ClimateData) :
    InUnit (tempRisksOf c).1 ∧ InUnit (tempRisksOf c).2 := by
  unfold tempRisksOf
  cases c.temperature with
  | none => exact ⟨inUnit_zero, inUnit_zero⟩
  | some t =>
    simp only
    split_ifs with h0 h1 h2
    · exact ⟨inUnit_zero, inUnit_zero⟩
    · refine ⟨inUnit_min_one ?_, inUnit_zero⟩
      have ht : (0:ℚ) ≤ t - 35 := by linarith
      positivity
    · refine ⟨inUnit_zero, inUnit_min_one ?_⟩
      have ht : (0:ℚ) ≤ -10 - t := by linarith
      positivity
    · exact ⟨inUnit_zero, inUnit_zero⟩

/-- Both precipitation-block scores lie in [0,1]. -/
lemma precipRisks_bounds (c : ClimateData) :
    InUnit (precipRisksOf c).1 ∧ InUnit (precipRisksOf c).2 := by
  unfold precipRisksOf
  cases c.precipitation with
  | none => exact ⟨inUnit_zero, inUnit_zero⟩
  | some p =>
    simp only
    split_ifs with h0 h1 h2
    · exact ⟨inUnit_zero, inUnit_zero⟩
    · refine ⟨inUnit_min_one ?_, inUnit_zero⟩
      have : (0:ℚ) ≤ p - 50 := by linarith
      positivity
    · exact ⟨inUnit_zero, by constructor <;> norm_num [InUnit]⟩
    · exact ⟨inUnit_zero, inUnit_zero⟩

/-- The storm score lies in [0,1]. -/
lemma stormRisk_bounds (c : ClimateData) : InUnit (stormRiskOf c) := by
  unfold stormRiskOf
  cases c.wind_speed with
  | none => exact inUnit_zero
  | some w =>
    simp only
    split_ifs with h
    · refine inUnit_min_one ?_
      have : (0:ℚ) ≤ w - 15 := by linarith [h.2]
      positivity
    · exact inUnit_zero

/-- The wildfire score lies in [0,1]. -/
lemma wildfireRisk_bounds (c : ClimateData) : InUnit (wildfireRiskOf c) := by
  unfold wildfireRiskOf
  cases hh : c.humidity with
  | none => exact inUnit_zero
  | some h =>
    cases ht : c.temperature with
    | none => exact inUnit_zero
    | some t =>
      simp only
      split_ifs with hc
      · refine inUnit_min_one ?_
        have h30 : (0:ℚ) ≤ 30 - h := by linarith [hc.2.2.1]
        have h25 : (0:ℚ) ≤ t - 25 := by linarith [hc.2.2.2]
        positivity
      · exact inUnit_zero

/-- A learned-model output vector with every coordinate 1/2. -/
def vecHalf : RiskVec := ⟨1/2, 1/2, 1/2, 1/2, 1/2, 1/2⟩

/-! ## Claim theorems -/

/-- C3: for every observation scored by the engine, the overall score of
the resulting RiskAssessment equals the arithmetic mean of the six
category scores, and each category score lies in [0,1].  In the rule-based
tier this is unconditional (each rule term is `min(1.0, ·)` of a
nonnegative quantity, or the constant 0.3); in the learned tier it holds
under the interface contract that the prediction collaborator returns
scores in [0,1] (sigmoid outputs). -/
theorem c3_overall_is_mean_and_scores_in_unit (pred : Option RiskVec)
    (c : ClimateData)
    (hpred : ∀ v, pred = some v → InUnit v.flood ∧ InUnit v.drought ∧
      InUnit v.storm ∧ InUnit v.heat_wave ∧ InUnit v.cold_wave ∧
      InUnit v.wildfire) :
    (generate_risk_assessment pred c).overall_risk =
      ((generate_risk_assessment pred c).flood_risk +
        (generate_risk_assessment pred c).drought_risk +
        (generate_risk_assessment pred c).storm_risk +
        (generate_risk_assessment pred c).heat_wave_risk +
        (generate_risk_assessment pred c).cold_wave_risk +
        (generate_risk_assessment pred c).wildfire_risk) / 6 ∧
    InUnit (generate_risk_assessment pred c).flood_risk ∧
    InUnit (generate_risk_assessment pred c).drought_risk ∧
    InUnit (generate_risk_assessment pred c).storm_risk ∧
    InUnit (generate_risk_assessment pred c).heat_wave_risk ∧
    InUnit (generate_risk_assessment pred c).cold_wave_risk ∧
    InUnit (generate_risk_assessment pred c).wildfire_risk := by
  cases pred with
  | some v =>
    obtain ⟨h1, h2, h3, h4, h5, h6⟩ := hpred v rfl
    exact ⟨rfl, h1, h2, h3, h4, h5, h6⟩
  | none =>
    exact ⟨rfl, (precipRisks_bounds c).1, (precipRisks_bounds c).2,
      stormRisk_bounds c, (tempRisks_bounds c).1, (tempRisks_bounds c).2,
      wildfireRisk_bounds c⟩

/-- C3 witness: the theorem applied to a concrete learned-tier output. -/
theorem c3_overall_is_mean_and_scores_in_unit_witness :
    InUnit (generate_risk_assessment (some vecHalf) obsAllMissing).flood_risk ∧
    (generate_risk_assessment (some vecHalf) obsAllMissing).overall_risk =
      ((generate_risk_assessment (some vecHalf) obsAllMissing).flood_risk +
        (generate_risk_assessment (some vecHalf) obsAllMissing).drought_risk +
        (generate_risk_assessment (some vecHalf) obsAllMissing).storm_risk +
        (generate_risk_assessment (some vecHalf) obsAllMissing).heat_wave_risk +
        (generate_risk_assessment (some vecHalf) obsAllMissing).cold_wave_risk +
        (generate_risk_assessment (some vecHalf) obsAllMissing).wildfire_risk)
        / 6 := by
  have h := c3_overall_is_mean_and_scores_in_unit (some vecHalf) obsAllMissing
    (fun v hv => by cases hv; norm_num [InUnit, vecHalf])
  exact ⟨h.2.1, h.1⟩

/-- C5 counterexample: on the known input (temperature 40, humidity 20,
wind speed 20) the rule-based tier does *not* put heat-wave, storm and
wildfire all strictly above 0.5 — the storm score is only 1/4. -/
theorem c5_counterexample :
    ¬ ((generate_default_risk_assessment obsHotDryWindy).heat_wave_risk > 1/2 ∧
       (generate_default_risk_assessment obsHotDryWindy).storm_risk > 1/2 ∧
       (generate_default_risk_assessment obsHotDryWindy).wildfire_risk > 1/2) := by
  intro hcl
  have hs : (generate_default_risk_assessment obsHotDryWindy).storm_risk
      = 1/4 := by
    norm_num [generate_default_risk_assessment, stormRiskOf, obsHotDryWindy,
      min_def]
  rw [hs] at hcl
  norm_num at hcl

/-- C5 amended: on the known input the rule-based tier yields heat-wave
risk exactly 0.5 (at, not above, the notable threshold), storm risk 1/4,
wildfire risk 1/3 — all strictly positive — and flood, drought and
cold-wave risks exactly 0, with overall 13/72. -/
theorem c5_known_input_scores :
    (generate_default_risk_assessment obsHotDryWindy).flood_risk = 0 ∧
    (generate_default_risk_assessment obsHotDryWindy).drought_risk = 0 ∧
    (generate_default_risk_assessment obsHotDryWindy).storm_risk = 1/4 ∧
    (generate_default_risk_assessment obsHotDryWindy).heat_wave_risk = 1/2 ∧
    (generate_default_risk_assessment obsHotDryWindy).cold_wave_risk = 0 ∧
    (generate_default_risk_assessment obsHotDryWindy).wildfire_risk = 1/3 ∧
    (generate_default_risk_assessment obsHotDryWindy).overall_risk = 13/72 := by
  refine ⟨?_, ?_, ?_, ?_, ?_, ?_, ?_⟩ <;>
    norm_num [generate_default_risk_assessment, tempRisksOf, precipRisksOf,
      stormRiskOf, wildfireRiskOf, obsHotDryWindy, min_def]

/-- C6 counterexample: an observation with low precipitation (0.5) and
*high* humidity (90) still gets drought risk 0.3 — the claim predicts 0. -/
theorem c6_counterexample :
    obsDrizzleHumid.humidity = some 90 ∧
    obsDrizzleHumid.precipitation = some (1/2) ∧
    (generate_default_risk_assessment obsDrizzleHumid).drought_risk = 3/10 := by
  refine ⟨rfl, rfl, ?_⟩
  norm_num [generate_default_risk_assessment, precipRisksOf, obsDrizzleHumid]

/-- C6 amended: in the rule-based tier the drought risk is nonzero exactly
when the precipitation reading is present, nonzero (Python truthiness) and
below 1; the humidity reading plays no role in the drought score. -/
theorem c6_drought_ignores_humidity (c : ClimateData) :
    ((generate_default_risk_assessment c).drought_risk ≠ 0 ↔
      ∃ p, c.precipitation = some p ∧ p ≠ 0 ∧ p < 1) ∧
    ∀ h, (generate_default_risk_assessment
        { c with humidity := h }).drought_risk =
      (generate_default_risk_assessment c).drought_risk := by
  constructor
  · simp only [generate_default_risk_assessment]
    unfold precipRisksOf
    cases hp : c.precipitation with
    | none => simp
    | some p =>
      dsimp only
      split_ifs with h0 h1 h2
      · simp [h0]
      · constructor
        · intro hc; exact absurd rfl hc
        · rintro ⟨q, hq, hq0, hq1⟩
          have := Option.some.inj hq
          subst this
          linarith
      · constructor
        · intro _; exact ⟨p, rfl, h0, h2⟩
        · intro _; norm_num
      · constructor
        · intro hc; exact absurd rfl hc
        · rintro ⟨q, hq, hq0, hq1⟩
          have := Option.some.inj hq
          subst this
          exact absurd hq1 h2
  · intro h; rfl

/-- C6 witness: the amended theorem applied at the concrete observation
with precipitation 0.5 and humidity 90. -/
theorem c6_drought_ignores_humidity_witness :
    (generate_default_risk_assessment obsDrizzleHumid).drought_risk ≠ 0 :=
  (c6_drought_ignores_humidity obsDrizzleHumid).1.mpr
    ⟨1/2, rfl, by norm_num, by norm_num⟩

/-- C9: when every reading consulted by the rule-based tier is missing,
all six category scores are exactly 0 and so is the overall score — no
rule term fires on an absent reading. -/
theorem c9_all_missing_all_zero (c : ClimateData)
    (ht : c.temperature = none) (hh : c.humidity = none)
    (hw : c.wind_speed = none) (hp : c.precipitation = none) :
    (generate_default_risk_assessment c).flood_risk = 0 ∧
    (generate_default_risk_assessment c).drought_risk = 0 ∧
    (generate_default_risk_assessment c).storm_risk = 0 ∧
    (generate_default_risk_assessment c).heat_wave_risk = 0 ∧
    (generate_default_risk_assessment c).cold_wave_risk = 0 ∧
    (generate_default_risk_assessment c).wildfire_risk = 0 ∧
    (generate_default_risk_assessment c).overall_risk = 0 := by
  refine ⟨?_, ?_, ?_, ?_, ?_, ?_, ?_⟩ <;>
    simp [generate_default_risk_assessment, tempRisksOf, precipRisksOf,
      stormRiskOf, wildfireRiskOf, ht, hh, hw, hp]

/-- C9 witness: the theorem applied to the all-missing observation. -/
theorem c9_all_missing_all_zero_witness :
    (generate_default_risk_assessment obsAllMissing).flood_risk = 0 ∧
    (generate_default_risk_assessment obsAllMissing).drought_risk = 0 ∧
    (generate_default_risk_assessment obsAllMissing).storm_risk = 0 ∧
    (generate_default_risk_assessment obsAllMissing).heat_wave_risk = 0 ∧
    (generate_default_risk_assessment obsAllMissing).cold_wave_risk = 0 ∧
    (generate_default_risk_assessment obsAllMissing).wildfire_risk = 0 ∧
    (generate_default_risk_assessment obsAllMissing).overall_risk = 0 :=
  c9_all_missing_all_zero obsAllMissing rfl rfl rfl rfl

/-- The resolved radius is nonnegative whenever the stored value is. -/
lemma orDefaultRadius_nonneg (r : Option ℚ)
    (h : ∀ x, r = some x → 0 ≤ x) : 0 ≤ orDefaultRadius r := by
  unfold orDefaultRadius
  cases r with
  | none => norm_num
  | some x =>
    dsimp only
    split_ifs with hx
    · norm_num
    · exact h x rfl

/-- C2 counterexample: with an explicit alert radius of exactly 0 (falsy
in Python, so the code substitutes the 50 km default) and a personal
radius of 1 km, a candidate 30 km away *is* matched by the code although
the claimed effective radius `max(alert.radius if set else 50, ...)`
is only 1 km. -/
theorem c2_counterexample :
    narrowUser ∈ find_affected_users dist30 zeroRadiusAlert [narrowUser] ∧
    ¬ (dist30 (zeroRadiusAlert.latitude, zeroRadiusAlert.longitude) (0, 0) ≤
        specEffectiveRadius zeroRadiusAlert narrowUser) := by
  constructor
  · norm_num [find_affected_users, List.mem_filter, withinEffectiveRadius,
      narrowUser, zeroRadiusAlert, baseAlert, dist30, orDefaultRadius,
      max_def]
  · norm_num [dist30, specEffectiveRadius, zeroRadiusAlert, baseAlert,
      narrowUser, max_def]

/-- C2 amended: for every active candidate with a registered location, the
matcher includes the candidate iff the distance to the alert location is
at most `max(alert.radius, candidate.notification_radius)` where each
radius falls back to 50 when it is absent *or exactly 0* (Python `or`);
a candidate at distance 0 is always matched provided the stored radii are
nonnegative (guaranteed by the creation schemas), and a candidate farther
than the effective radius is never matched. -/
theorem c2_matcher_effective_radius (dist : DistanceFn)
    (a : EmergencyAlert) (db : List User) (u : User) (lat lon : ℚ)
    (hu : u ∈ db) (hact : u.is_active = true)
    (hlat : u.default_latitude = some lat)
    (hlon : u.default_longitude = some lon) :
    (u ∈ find_affected_users dist a db ↔
      dist (a.latitude, a.longitude) (lat, lon) ≤
        max (orDefaultRadius a.radius) (orDefaultRadius u.notification_radius))
    ∧ (dist (a.latitude, a.longitude) (lat, lon) = 0 →
        (∀ x, a.radius = some x → 0 ≤ x) →
        (∀ x, u.notification_radius = some x → 0 ≤ x) →
        u ∈ find_affected_users dist a db)
    ∧ (max (orDefaultRadius a.radius) (orDefaultRadius u.notification_radius)
        < dist (a.latitude, a.longitude) (lat, lon) →
        u ∉ find_affected_users dist a db) := by
  have hmem : u ∈ find_affected_users dist a db ↔
      dist (a.latitude, a.longitude) (lat, lon) ≤
        max (orDefaultRadius a.radius)
          (orDefaultRadius u.notification_radius) := by
    simp [find_affected_users, List.mem_filter, withinEffectiveRadius,
      hact, hlat, hlon, hu]
  refine ⟨hmem, ?_, ?_⟩
  · intro hd ha hn
    refine hmem.mpr ?_
    rw [hd]
    exact le_trans (orDefaultRadius_nonneg _ ha) (le_max_left _ _)
  · intro hlt hmem'
    exact absurd (hmem.mp hmem') (not_le.mpr hlt)

/-- C2 witness: a candidate registered exactly at the alert coordinates is
matched when both radii are absent. -/
theorem c2_matcher_effective_radius_witness :
    ordinaryUser ∈ find_affected_users dist0 baseAlert [ordinaryUser] :=
  (c2_matcher_effective_radius dist0 baseAlert [ordinaryUser] ordinaryUser
      0 0 (by simp) rfl rfl rfl).2.1 rfl
    (fun x hx => Option.noConfusion hx) (fun x hx => Option.noConfusion hx)

/-- C1 counterexample: the update handler applies a status patch to an
alert whose current status is `resolved` (terminal) and returns success
with the status moved back to `active` — no state-violation rejection
exists, and the claimed monotonicity fails. -/
theorem c1_counterexample :
    resolvedAlert.status = AlertStatus.resolved ∧
    update_emergency_alert [resolvedAlert] "ALERT-1" statusToActivePatch
        UserRole.admin =
      Except.ok { resolvedAlert with status := AlertStatus.active } := by
  exact ⟨rfl, rfl⟩

/-- C1 amended: `update_emergency_alert` is insensitive to the stored
status: for every authorized role and every alert found by id, any patch
(status-changing or not, on a terminal alert or not) is applied field by
field and the update succeeds; the resulting status is the patched one
whenever the patch carries a status. -/
theorem c1_terminal_update_not_rejected (db : List EmergencyAlert)
    (aid : String) (p : AlertPatch) (role : UserRole) (a : EmergencyAlert)
    (hrole : canManageAlerts role = true)
    (hfind : findAlert db aid = some a) :
    update_emergency_alert db aid p role = Except.ok (applyPatch a p) ∧
    (applyPatch a p).status = p.status.getD a.status := by
  constructor
  · simp [update_emergency_alert, hrole, hfind]
  · rfl

/-- C1 witness: the theorem applied to the concrete terminal alert and the
status-to-active patch. -/
theorem c1_terminal_update_not_rejected_witness :
    update_emergency_alert [resolvedAlert] "ALERT-1" statusToActivePatch
        UserRole.government =
      Except.ok (applyPatch resolvedAlert statusToActivePatch) ∧
    (applyPatch resolvedAlert statusToActivePatch).status =
      AlertStatus.active := by
  have h := c1_terminal_update_not_rejected [resolvedAlert] "ALERT-1"
    statusToActivePatch UserRole.government resolvedAlert rfl rfl
  exact ⟨h.1, h.2⟩

/-- When no send ever reports success, a plan run counts zero successes
and records no successful channel. -/
lemma runPlan_all_fail (send : SendFn) (u : User)
    (hf : ∀ ch, send ch u ≠ SendOutcome.ok true) :
    ∀ plan, (runPlan send u plan).sent = 0 ∧
      (runPlan send u plan).okChannels = [] := by
  intro plan
  induction plan with
  | nil => exact ⟨rfl, rfl⟩
  | cons ch rest ih =>
    cases hc : send ch u with
    | exn m => simp [runPlan, hc]
    | ok b =>
      cases b with
      | true => exact absurd hc (hf ch)
      | false => simp [runPlan, hc, ih.1, ih.2]

/-- When no send raises, a plan run records no error. -/
lemma runPlan_no_exn_error (send : SendFn) (u : User)
    (hne : ∀ ch m, send ch u ≠ SendOutcome.exn m) :
    ∀ plan, (runPlan send u plan).error = none := by
  intro plan
  induction plan with
  | nil => rfl
  | cons ch rest ih =>
    cases hc : send ch u with
    | exn m => exact absurd hc (hne ch m)
    | ok b => simp [runPlan, hc, ih]

/-- When no send raises, every planned channel is attempted. -/
lemma runPlan_no_exn_attempts (send : SendFn) (u : User)
    (hne : ∀ ch m, send ch u ≠ SendOutcome.exn m) :
    ∀ plan, (runPlan send u plan).attempts = plan := by
  intro plan
  induction plan with
  | nil => rfl
  | cons ch rest ih =>
    cases hc : send ch u with
    | exn m => exact absurd hc (hne ch m)
    | ok b => simp [runPlan, hc, ih]

/-- Every attempted channel was part of the plan. -/
lemma runPlan_attempts_subset (send : SendFn) (u : User) :
    ∀ plan c, c ∈ (runPlan send u plan).attempts → c ∈ plan := by
  intro plan
  induction plan with
  | nil => intro c hc; simp [runPlan] at hc
  | cons ch rest ih =>
    intro c hc
    cases hs : send ch u with
    | exn m =>
      simp [runPlan, hs] at hc
      simp [hc]
    | ok b =>
      simp [runPlan, hs] at hc
      rcases hc with h | h
      · simp [h]
      · exact List.mem_cons_of_mem _ (ih c h)

/-- The success counter of the loop decomposes as the sum of independent
per-recipient counts. -/
lemma foldl_dispatch_sent (send : SendFn) (a : EmergencyAlert) :
    ∀ (users : List User) (r : DispatchResult),
      (users.foldl (dispatchStep send a) r).notifications_sent =
        r.notifications_sent +
          (users.map fun u => (notifyUser send a u).sent).sum := by
  intro users
  induction users with
  | nil => intro r; simp
  | cons u us ih =>
    intro r
    simp only [List.foldl_cons, List.map_cons, List.sum_cons]
    rw [ih]
    simp only [dispatchStep]
    omega

/-- The error list of the loop is the concatenation of the independent
per-recipient errors; one failing recipient never contributes more than
its own entry. -/
lemma foldl_dispatch_errors (send : SendFn) (a : EmergencyAlert) :
    ∀ (users : List User) (r : DispatchResult),
      (users.foldl (dispatchStep send a) r).errors =
        r.errors ++ users.filterMap fun u => (notifyUser send a u).error := by
  intro users
  induction users with
  | nil => intro r; simp
  | cons u us ih =>
    intro r
    simp only [List.foldl_cons, List.filterMap_cons]
    rw [ih]
    cases ho : (notifyUser send a u).error with
    | none => simp [dispatchStep, ho]
    | some m => simp [dispatchStep, ho]

/-- When no recipient has a successful channel, the loop leaves the
channels-used list unchanged. -/
lemma foldl_dispatch_channels (send : SendFn) (a : EmergencyAlert) :
    ∀ (users : List User) (r : DispatchResult),
      (∀ u ∈ users, (notifyUser send a u).okChannels = []) →
      (users.foldl (dispatchStep send a) r).channels_used =
        r.channels_used := by
  intro users
  induction users with
  | nil => intro r _; rfl
  | cons u us ih =>
    intro r hall
    simp only [List.foldl_cons]
    rw [ih]
    · simp [dispatchStep, hall u (List.mem_cons_self u us)]
    · intro v hv; exact hall v (List.mem_cons_of_mem _ hv)

/-- C4 counterexample: with one matched recipient and every channel send
reporting failure (returning `False`), the aggregate has zero successes
but an *empty* error list — not the populated per-recipient error list
the claim demands. -/
theorem c4_counterexample :
    (∀ ch u, sendFail ch u ≠ SendOutcome.ok true) ∧
    (send_alert_notifications dist0 sendFail baseAlert
        [ordinaryUser]).notifications_sent = 0 ∧
    (send_alert_notifications dist0 sendFail baseAlert
        [ordinaryUser]).errors = [] := by
  exact ⟨fun ch u => by simp [sendFail], rfl, rfl⟩

/-- C4 amended: a dispatch pass is a total function of its inputs (never
raises).  When every individual channel send fails, the aggregate is
well-formed with zero successes and no channel used; the error list
collects exactly one entry per matched recipient whose processing raised
an exception, so it is empty when sends fail only by returning `False`. -/
theorem c4_all_fail_aggregate (dist : DistanceFn) (send : SendFn)
    (a : EmergencyAlert) (db : List User)
    (hf : ∀ ch u, send ch u ≠ SendOutcome.ok true) :
    (send_alert_notifications dist send a db).notifications_sent = 0 ∧
    (send_alert_notifications dist send a db).channels_used = [] ∧
    (send_alert_notifications dist send a db).errors =
      (find_affected_users dist a db).filterMap
        (fun u => (notifyUser send a u).error) ∧
    ((∀ ch u m, send ch u ≠ SendOutcome.exn m) →
      (send_alert_notifications dist send a db).errors = []) := by
  have hzero : ∀ u, (notifyUser send a u).sent = 0 ∧
      (notifyUser send a u).okChannels = [] := by
    intro u
    exact runPlan_all_fail send u (fun ch => hf ch u) (channelPlan a u)
  unfold send_alert_notifications
  cases hemp : (find_affected_users dist a db).isEmpty with
  | true =>
    have hnil : find_affected_users dist a db = [] :=
      List.isEmpty_iff.mp hemp
    simp [hnil]
  | false =>
    simp only [hemp, Bool.false_eq_true, if_false]
    have herr : ((find_affected_users dist a db).foldl
        (dispatchStep send a) ⟨0, [], []⟩).errors =
        (find_affected_users dist a db).filterMap
          (fun u => (notifyUser send a u).error) := by
      rw [foldl_dispatch_errors]
      rfl
    refine ⟨?_, ?_, herr, ?_⟩
    · rw [foldl_dispatch_sent]
      have : ((find_affected_users dist a db).map
          fun u => (notifyUser send a u).sent).sum = 0 := by
        apply List.sum_eq_zero
        intro x hx
        obtain ⟨u, _, hxu⟩ := List.mem_map.mp hx
        rw [← hxu]
        exact (hzero u).1
      rw [this]
    · exact foldl_dispatch_channels send a _ _ (fun u _ => (hzero u).2)
    · intro hne
      rw [herr]
      apply List.filterMap_eq_nil_iff.mpr
      intro u _
      exact runPlan_no_exn_error send u (fun ch m => hne ch u m)
        (channelPlan a u)

/-- C4 witness: the amended theorem at the all-failing collaborator. -/
theorem c4_all_fail_aggregate_witness :
    (send_alert_notifications dist0 sendFail baseAlert
        [ordinaryUser]).channels_used = [] :=
  (c4_all_fail_aggregate dist0 sendFail baseAlert [ordinaryUser]
      (fun ch u => by simp [sendFail])).2.1

/-- C10: every SMS body is at most 160 characters; a composed message
longer than 160 characters is replaced by its first 157 characters
followed by `"..."`, and a shorter one is sent unmodified. -/
theorem c10_sms_truncation (a : EmergencyAlert) :
    (smsMessage a).length ≤ 160 ∧
    (160 < (composeSmsMessage a).length →
      smsMessage a = (composeSmsMessage a).take 157 ++ "...".data) ∧
    ((composeSmsMessage a).length ≤ 160 →
      smsMessage a = composeSmsMessage a) := by
  unfold smsMessage truncateSms
  split_ifs with h
  · refine ⟨?_, fun _ => rfl, fun hle => absurd hle (not_le.mpr h)⟩
    simp only [List.length_append, List.length_take, List.length_cons,
      List.length_nil]
    omega
  · exact ⟨not_lt.mp h, fun hgt => absurd hgt h, fun _ => rfl⟩

/-- C10 witness: on the concrete base alert the composed message is short
and sent unmodified. -/
theorem c10_sms_truncation_witness :
    (smsMessage baseAlert).length ≤ 160 ∧
    smsMessage baseAlert = composeSmsMessage baseAlert :=
  ⟨(c10_sms_truncation baseAlert).1,
    (c10_sms_truncation baseAlert).2.2 (by decide)⟩

/-- SMS is planned for a user exactly when the SMS condition holds. -/
lemma sms_mem_channelPlan (a : EmergencyAlert) (u : User) :
    Channel.sms ∈ channelPlan a u ↔ smsCondition a u = true := by
  unfold channelPlan
  split_ifs with h1 h2 <;> simp_all

/-- The government loop always attempts the government email and never
attempts SMS. -/
lemma mem_govUserAttempts (send : SendFn) (u : User) :
    Channel.govEmail ∈ govUserAttempts send u ∧
    Channel.sms ∉ govUserAttempts send u := by
  unfold govUserAttempts
  cases send Channel.govEmail u with
  | exn m => simp
  | ok b => simp

/-- Membership in a user-tagged flatMap of channel lists. -/
lemma pair_mem_tagged_flatMap {l : List User} {f : User → List Channel}
    {u : User} {c : Channel} :
    (u, c) ∈ l.flatMap (fun v => (f v).map fun ch => (v, ch)) ↔
      u ∈ l ∧ c ∈ f u := by
  constructor
  · intro h
    obtain ⟨v, hv, hmem⟩ := List.mem_flatMap.mp h
    obtain ⟨ch, hch, heq⟩ := List.mem_map.mp hmem
    cases heq
    exact ⟨hv, hch⟩
  · rintro ⟨hu, hc⟩
    exact List.mem_flatMap.mpr ⟨u, hu, List.mem_map.mpr ⟨c, hc, rfl⟩⟩

/-- C7 counterexample: on a critical alert, a government recipient with a
phone number who is not geospatially matched receives notifications only
through the government loop — which never attempts SMS — so the claimed
"SMS iff critical and phone" fails for them. -/
theorem c7_counterexample :
    baseAlert.severity = AlertSeverity.critical ∧
    strTruthy govPhoneUser.phone_number = true ∧
    (govPhoneUser, Channel.sms) ∉
      passAttempts dist0 sendOk baseAlert [ordinaryUser, govPhoneUser] ∧
    (govPhoneUser, Channel.govEmail) ∈
      passAttempts dist0 sendOk baseAlert [ordinaryUser, govPhoneUser] := by
  refine ⟨rfl, rfl, ?_, ?_⟩ <;> decide

/-- C7 amended: no SMS is ever attempted for a non-critical alert; and
when no send raises, an SMS attempt is made for a recipient iff that
recipient is geospatially matched, the severity is critical and a (truthy)
phone number exists.  Recipients reached only through the government loop
never get SMS. -/
theorem c7_sms_iff_critical_and_phone (dist : DistanceFn) (send : SendFn)
    (a : EmergencyAlert) (db : List User) (u : User) :
    (a.severity ≠ AlertSeverity.critical →
      (u, Channel.sms) ∉ passAttempts dist send a db) ∧
    ((∀ v ch m, send ch v ≠ SendOutcome.exn m) →
      ((u, Channel.sms) ∈ passAttempts dist send a db ↔
        u ∈ find_affected_users dist a db ∧
          a.severity = AlertSeverity.critical ∧
          strTruthy u.phone_number = true)) := by
  constructor
  · intro hsev hmem
    simp only [passAttempts] at hmem
    by_cases hemp : (find_affected_users dist a db).isEmpty = true
    · rw [if_pos hemp] at hmem
      exact absurd hmem (List.not_mem_nil _)
    · rw [if_neg hemp] at hmem
      rcases List.mem_append.mp hmem with h | h
      · obtain ⟨hu, hc⟩ := pair_mem_tagged_flatMap.mp h
        have hplan := runPlan_attempts_subset send u (channelPlan a u)
          Channel.sms hc
        have hcond := (sms_mem_channelPlan a u).mp hplan
        simp only [smsCondition, Bool.and_eq_true, beq_iff_eq] at hcond
        exact hsev hcond.1
      · obtain ⟨hu, hc⟩ := pair_mem_tagged_flatMap.mp h
        exact (mem_govUserAttempts send u).2 hc
  · intro hne
    simp only [passAttempts]
    by_cases hemp : (find_affected_users dist a db).isEmpty = true
    · rw [if_pos hemp]
      have hnil := List.isEmpty_iff.mp hemp
      simp [hnil]
    · rw [if_neg hemp]
      have hatt : (notifyUser send a u).attempts = channelPlan a u :=
        runPlan_no_exn_attempts send u (fun ch m => hne u ch m)
          (channelPlan a u)
      constructor
      · intro hmem
        rcases List.mem_append.mp hmem with h | h
        · obtain ⟨hu, hc⟩ := pair_mem_tagged_flatMap.mp h
          rw [hatt] at hc
          have hcond := (sms_mem_channelPlan a u).mp hc
          simp only [smsCondition, Bool.and_eq_true, beq_iff_eq] at hcond
          exact ⟨hu, hcond.1, hcond.2⟩
        · obtain ⟨hu, hc⟩ := pair_mem_tagged_flatMap.mp h
          exact absurd hc (mem_govUserAttempts send u).2
      · rintro ⟨hu, hsev, hph⟩
        apply List.mem_append.mpr
        left
        apply pair_mem_tagged_flatMap.mpr
        refine ⟨hu, ?_⟩
        rw [hatt]
        apply (sms_mem_channelPlan a u).mpr
        simp [smsCondition, hsev, hph]

/-- C7 witness: for a low-severity alert no SMS attempt targets the
matched recipient. -/
theorem c7_sms_iff_critical_and_phone_witness :
    (ordinaryUser, Channel.sms) ∉
      passAttempts dist0 sendOk lowAlert [ordinaryUser] :=
  (c7_sms_iff_critical_and_phone dist0 sendOk lowAlert [ordinaryUser]
      ordinaryUser).1 (by decide)

/-- C8 counterexample: a dispatch pass over a database holding only an
active government user with no registered location notifies nobody — the
pass returns early because the geospatial match is empty, so the
government recipient is *not* included in the dispatch candidates. -/
theorem c8_counterexample :
    govPhoneUser.is_active = true ∧
    govPhoneUser.role = UserRole.government ∧
    passAttempts dist0 sendOk baseAlert [govPhoneUser] = [] := by
  exact ⟨rfl, rfl, rfl⟩

/-- C8 amended: every active government or emergency-responder recipient
belongs to the role-based selection regardless of location, and — provided
at least one recipient is geospatially matched, since otherwise the pass
returns early — is attempted through the government channel; a recipient
lacking a registered coordinate is never geospatially matched
(unconditionally). -/
theorem c8_role_based_candidates (dist : DistanceFn) (send : SendFn)
    (a : EmergencyAlert) (db : List User) (u : User) :
    (u ∈ db → u.is_active = true →
      (u.role = UserRole.government ∨ u.role = UserRole.emergency_responder) →
      u ∈ government_users db ∧
      (find_affected_users dist a db ≠ [] →
        (u, Channel.govEmail) ∈ passAttempts dist send a db)) ∧
    ((u.default_latitude = none ∨ u.default_longitude = none) →
      u ∉ find_affected_users dist a db) := by
  constructor
  · intro hu hact hrole
    have hgov : u ∈ government_users db := by
      simp only [government_users, List.mem_filter]
      refine ⟨hu, ?_⟩
      rcases hrole with h | h <;> simp [hact, h]
    refine ⟨hgov, ?_⟩
    intro hne
    cases hemp : (find_affected_users dist a db).isEmpty with
    | true => exact absurd (List.isEmpty_iff.mp hemp) hne
    | false =>
      simp only [passAttempts, hemp, Bool.false_eq_true, if_false]
      apply List.mem_append.mpr
      right
      exact pair_mem_tagged_flatMap.mpr ⟨hgov, (mem_govUserAttempts send u).1⟩
  · intro hnone hmem
    unfold find_affected_users at hmem
    have hpre := (List.mem_filter.mp (List.mem_filter.mp hmem).1).2
    rcases hnone with h | h <;> simp [h] at hpre

/-- C8 witness: the government user is selected and attempted when an
ordinary recipient makes the geospatial match nonempty. -/
theorem c8_role_based_candidates_witness :
    govPhoneUser ∈ government_users [ordinaryUser, govPhoneUser] ∧
    (govPhoneUser, Channel.govEmail) ∈
      passAttempts dist0 sendOk baseAlert [ordinaryUser, govPhoneUser] := by
  have h := (c8_role_based_candidates dist0 sendOk baseAlert
    [ordinaryUser, govPhoneUser] govPhoneUser).1 (by simp) rfl (Or.inl rfl)
  exact ⟨h.1, h.2 (by decide)⟩

end ClimateGuardian
